import Mathlib

/-!
Verification of the markethub authorization and checkout core.

The Rust source is shallowly embedded: repository methods backed by SQL
become pure functions over an explicit database state (lists of rows),
services become functions threading that state, and the checkout
transaction becomes a draft state that is published on commit and
discarded on error (rollback).  rust_decimal Decimal values are modelled
as exact rationals (no division occurs, so arithmetic is exact in the
range the claims exercise); i32/i64 quantities are modelled as Int, and
Uuid values as Nat tags.
-/

namespace MarketHub

abbrev Uuid := Nat

/-- Minimal JSON value type, standing in for serde_json Value. -/
inductive Jv where
  | null : Jv
  | jbool : Bool → Jv
  | num : Rat → Jv
  | str : String → Jv
  | arr : List Jv → Jv
  | obj : List (String × Jv) → Jv

/-- serde_json Value::as_array. -/
def Jv.as_array : Jv → Option (List Jv)
  | .arr xs => some xs
  | _ => none

/-- serde_json Value::as_str. -/
def Jv.as_str : Jv → Option String
  | .str s => some s
  | _ => none

/-- serde_json Value::as_object. -/
def Jv.as_object : Jv → Option (List (String × Jv))
  | .obj fields => some fields
  | _ => none

/-- The error taxonomy of src/error.rs (payloads are the message strings). -/
inductive AppError where
  | Database : String → AppError
  | Validation : String → AppError
  | Authentication : String → AppError
  | Authorization : String → AppError
  | NotFound : String → AppError
  | Conflict : String → AppError
  | BadRequest : String → AppError
  | Internal : String → AppError
deriving DecidableEq, Repr

/-- The closed permission enumeration of src/models/permission.rs. -/
inductive Permission where
  | ViewProducts | CreateProducts | EditProducts | DeleteProducts
  | ViewOrders | ProcessOrders | CancelOrders
  | ViewMembers | InviteMembers | EditPermissions
  | GrantAccess | RevokeAccess
  | ViewStats | ExportReports
deriving DecidableEq, Repr

/-- Permission::as_str, the canonical SCREAMING_SNAKE_CASE string form. -/
def Permission.as_str : Permission → String
  | .ViewProducts => "VIEW_PRODUCTS"
  | .CreateProducts => "CREATE_PRODUCTS"
  | .EditProducts => "EDIT_PRODUCTS"
  | .DeleteProducts => "DELETE_PRODUCTS"
  | .ViewOrders => "VIEW_ORDERS"
  | .ProcessOrders => "PROCESS_ORDERS"
  | .CancelOrders => "CANCEL_ORDERS"
  | .ViewMembers => "VIEW_MEMBERS"
  | .InviteMembers => "INVITE_MEMBERS"
  | .EditPermissions => "EDIT_PERMISSIONS"
  | .GrantAccess => "GRANT_ACCESS"
  | .RevokeAccess => "REVOKE_ACCESS"
  | .ViewStats => "VIEW_STATS"
  | .ExportReports => "EXPORT_REPORTS"

inductive MemberRole where
  | Owner | Admin | Manager | Staff | Custom
deriving DecidableEq, Repr

inductive AccessLevel where
  | View | ViewAndBuy
deriving DecidableEq, Repr

inductive StoreStatus where
  | Active | Suspended | Closed
deriving DecidableEq, Repr

inductive OrderStatus where
  | Pending | Confirmed | Processing | Shipped | Delivered | Cancelled
deriving DecidableEq, Repr

inductive PaymentStatus where
  | Pending | Paid | Failed | Refunded
deriving DecidableEq, Repr

structure Store where
  id : Uuid
  owner_id : Uuid
  name : String
  is_private : Bool
  status : StoreStatus
deriving DecidableEq, Repr

structure Product where
  id : Uuid
  store_id : Uuid
  name : String
  price : Rat
  stock_quantity : Int
  is_active : Bool
deriving DecidableEq, Repr

structure StoreMember where
  id : Uuid
  store_id : Uuid
  user_id : Uuid
  role : MemberRole
  permissions : Jv
  is_active : Bool

structure StoreAccessGrant where
  id : Uuid
  store_id : Uuid
  user_id : Uuid
  granted_by : Uuid
  access_level : AccessLevel
  expires_at : Option Nat
  is_revoked : Bool
  revoked_at : Option Nat
deriving DecidableEq, Repr

structure CartItem where
  id : Uuid
  user_id : Uuid
  product_id : Uuid
  quantity : Int
deriving DecidableEq, Repr

structure CartItemDetail where
  cart_item_id : Uuid
  product_id : Uuid
  store_id : Uuid
  store_name : String
  product_name : String
  unit_price : Rat
  quantity : Int
deriving DecidableEq, Repr

structure OrderGroup where
  id : Uuid
  user_id : Uuid
  group_number : String
  total_amount : Rat
  payment_status : PaymentStatus
deriving DecidableEq, Repr

structure Order where
  id : Uuid
  order_group_id : Uuid
  user_id : Uuid
  store_id : Uuid
  order_number : String
  status : OrderStatus
  subtotal : Rat
  tax : Rat
  discount : Rat
  shipping_cost : Rat
  total_amount : Rat
  shipping_address : Jv

structure OrderItem where
  id : Uuid
  order_id : Uuid
  product_id : Uuid
  quantity : Int
  unit_price : Rat
  subtotal : Rat

/-- The database state: one list of rows per table, plus a fresh-id
counter standing in for generated row ids.  The cart_items list is kept
in listing order (added_at DESC): the newest row is at the head. -/
structure Db where
  stores : List Store
  products : List Product
  store_members : List StoreMember
  access_grants : List StoreAccessGrant
  cart_items : List CartItem
  order_groups : List OrderGroup
  orders : List Order
  order_items : List OrderItem
  next_id : Uuid

/-- StoreRepository::find_by_id (SELECT * FROM stores WHERE id = $1). -/
def StoreRepository.find_by_id (db : Db) (store_id : Uuid) : Option Store :=
  db.stores.find? (fun s => decide (s.id = store_id))

/-- MemberRepository::find_membership: the single active membership row
for the (store, user) pair, if any. -/
def MemberRepository.find_membership (db : Db) (store_id user_id : Uuid) :
    Option StoreMember :=
  db.store_members.find? (fun m =>
    decide (m.store_id = store_id) && decide (m.user_id = user_id) && m.is_active)

/-- Row predicate of AccessGrantRepository::find_active: not revoked and
not expired at the current time. -/
def grant_active (now : Nat) (store_id user_id : Uuid) (g : StoreAccessGrant) : Bool :=
  decide (g.store_id = store_id) && decide (g.user_id = user_id) && !g.is_revoked &&
    (match g.expires_at with
     | none => true
     | some t => decide (now < t))

/-- AccessGrantRepository::find_active. -/
def AccessGrantRepository.find_active (db : Db) (now : Nat) (store_id user_id : Uuid) :
    Option StoreAccessGrant :=
  db.access_grants.find? (grant_active now store_id user_id)

/-- Rust str::eq_ignore_ascii_case, lifted to the character level. -/
def ascii_lower (c : Char) : Char :=
  if 'A' ≤ c ∧ c ≤ 'Z' then Char.ofNat (c.toNat + 32) else c

def eq_ignore_ascii_case (a b : String) : Bool :=
  a.data.map ascii_lower == b.data.map ascii_lower

/-- PermissionService::member_has_permission. -/
def member_has_permission (permissions : Jv) (role : MemberRole)
    (permission : Permission) : Bool :=
  if role = .Owner ∨ role = .Admin then true
  else
    match permissions.as_array with
    | some list => list.filterMap Jv.as_str
        |>.any (fun value => eq_ignore_ascii_case value permission.as_str)
    | none => false

/-- Step 3 of the resolver: the access-grant check as composed inside
ensure_store_permission (find_active, then access level mapping). -/
def access_allows (level : AccessLevel) (permission : Permission) : Bool :=
  match level with
  | .View => decide (permission = .ViewProducts ∨ permission = .ViewOrders)
  | .ViewAndBuy => decide (permission = .ViewProducts ∨ permission = .ViewOrders ∨
      permission = .ProcessOrders)

/-- PermissionService::ensure_store_permission. -/
def ensure_store_permission (db : Db) (now : Nat) (user_id store_id : Uuid)
    (permission : Permission) : Except AppError Unit :=
  match StoreRepository.find_by_id db store_id with
  | none => .error (.NotFound "Store not found")
  | some store =>
    if ((MemberRepository.find_membership db store_id user_id).map
        (fun member => member_has_permission member.permissions member.role permission)).getD false then
      .ok ()
    else if !store.is_private ∧ (permission = .ViewProducts ∨ permission = .ViewOrders) then
      .ok ()
    else if ((AccessGrantRepository.find_active db now store_id user_id).map
        (fun grant => access_allows grant.access_level permission)).getD false then
      .ok ()
    else
      .error (.Authorization "Insufficient permissions")

/-- CartRepository::list_with_products: the user's cart lines inner-joined
with their product and store rows; a line whose product or store row is
absent is dropped by the join. -/
def CartRepository.list_with_products (db : Db) (user_id : Uuid) : List CartItemDetail :=
  db.cart_items.filterMap (fun c =>
    if c.user_id = user_id then
      match db.products.find? (fun p => decide (p.id = c.product_id)) with
      | none => none
      | some p =>
        match db.stores.find? (fun s => decide (s.id = p.store_id)) with
        | none => none
        | some s => some
            { cart_item_id := c.id
              product_id := c.product_id
              store_id := p.store_id
              store_name := s.name
              product_name := p.name
              unit_price := p.price
              quantity := c.quantity }
    else none)

/-- CartRepository::upsert_item: INSERT .. ON CONFLICT (user_id, product_id)
DO UPDATE SET quantity = quantity + EXCLUDED.quantity.  A fresh row goes
to the head of the list (added_at DESC listing order). -/
def CartRepository.upsert_item (db : Db) (user_id product_id : Uuid) (quantity : Int) :
    CartItem × Db :=
  match db.cart_items.find? (fun c =>
      decide (c.user_id = user_id) && decide (c.product_id = product_id)) with
  | some c =>
    ({ c with quantity := c.quantity + quantity },
     { db with cart_items := db.cart_items.map (fun x =>
         if decide (x.user_id = user_id) && decide (x.product_id = product_id) then
           { x with quantity := x.quantity + quantity }
         else x) })
  | none =>
    let item : CartItem :=
      { id := db.next_id, user_id := user_id, product_id := product_id, quantity := quantity }
    (item, { db with next_id := db.next_id + 1, cart_items := item :: db.cart_items })

/-- CartRepository::clear_user (DELETE FROM cart_items WHERE user_id = $1). -/
def CartRepository.clear_user (db : Db) (user_id : Uuid) : Db :=
  { db with cart_items := db.cart_items.filter (fun c => decide (c.user_id ≠ user_id)) }

/-- ProductRepository::find_by_id. -/
def ProductRepository.find_by_id (db : Db) (product_id : Uuid) : Option Product :=
  db.products.find? (fun p => decide (p.id = product_id))

/-- Row predicate of the conditional stock UPDATE
(WHERE id = $1 AND stock_quantity >= $2). -/
def dec_matches (product_id : Uuid) (qty : Int) (p : Product) : Bool :=
  decide (p.id = product_id) && decide (qty ≤ p.stock_quantity)

/-- Effect of the conditional stock UPDATE on the products table. -/
def apply_dec (prods : List Product) (product_id : Uuid) (qty : Int) : List Product :=
  prods.map (fun p =>
    if dec_matches product_id qty p then { p with stock_quantity := p.stock_quantity - qty }
    else p)

/-- ProductRepository::decrement_stock_in_tx: the atomic conditional
decrement; rows_affected = 0 yields the Conflict error. -/
def ProductRepository.decrement_stock_in_tx (db : Db) (product_id : Uuid) (qty : Int) :
    Except AppError Db :=
  if db.products.countP (dec_matches product_id qty) = 0 then
    .error (.Conflict "Insufficient stock")
  else
    .ok { db with products := apply_dec db.products product_id qty }

/-- ProductRepository::decrement_stock: the same conditional UPDATE run
directly on the pool; an affected count of zero leaves the table as it was. -/
def ProductRepository.decrement_stock (db : Db) (product_id : Uuid) (qty : Int) :
    Except AppError Unit × Db :=
  match ProductRepository.decrement_stock_in_tx db product_id qty with
  | .ok db2 => (.ok (), db2)
  | .error e => (.error e, db)

/-- AddCartItemRequest with its validator range annotation on quantity. -/
structure AddCartItemRequest where
  product_id : Uuid
  quantity : Int
deriving DecidableEq, Repr

/-- AddCartItemRequest::validate (range min = 1, max = 1000). -/
def AddCartItemRequest.validate (payload : AddCartItemRequest) : Except AppError Unit :=
  if 1 ≤ payload.quantity ∧ payload.quantity ≤ 1000 then .ok ()
  else .error (.Validation "quantity: range")

/-- CartService::add_item. -/
def add_item (db : Db) (user_id : Uuid) (payload : AddCartItemRequest) :
    Except AppError CartItem × Db :=
  match payload.validate with
  | .error e => (.error e, db)
  | .ok () =>
    match ProductRepository.find_by_id db payload.product_id with
    | none => (.error (.NotFound "Product not found"), db)
    | some product =>
      if product.is_active = false then (.error (.BadRequest "Product is inactive"), db)
      else if product.stock_quantity < payload.quantity then
        (.error (.Conflict "Insufficient stock"), db)
      else
        let r := CartRepository.upsert_item db user_id payload.product_id payload.quantity
        (.ok r.1, r.2)

structure CheckoutRequest where
  shipping_address : Jv

/-- CheckoutRequest::validate via validate_shipping_address: the address
must be a JSON object with at least one field. -/
def CheckoutRequest.validate (payload : CheckoutRequest) : Except AppError Unit :=
  match payload.shipping_address.as_object with
  | some fields => if fields.isEmpty then .error (.Validation "empty_address") else .ok ()
  | none => .error (.Validation "invalid_address")

structure CheckoutSummary where
  order_group : OrderGroup
  orders : List Order

structure StoreCalculation where
  store_id : Uuid
  items : List CartItemDetail
  subtotal : Rat
  tax : Rat
  discount : Rat
  shipping_cost : Rat
  total_amount : Rat
  shipping_address : Jv

/-- One step of CartItemDetail::group_by_store: push the line onto its
store's partition, creating the partition at the end on first sight. -/
def ginsert (acc : List (Uuid × List CartItemDetail)) (item : CartItemDetail) :
    List (Uuid × List CartItemDetail) :=
  match acc with
  | [] => [(item.store_id, [item])]
  | (k, xs) :: rest =>
    if k = item.store_id then (k, xs ++ [item]) :: rest
    else (k, xs) :: ginsert rest item

/-- CartItemDetail::group_by_store.  The Rust code builds a HashMap whose
iteration order is unspecified; the model fixes the first-seen key order,
one deterministic choice within the contract. -/
def group_by_store (items : List CartItemDetail) : List (Uuid × List CartItemDetail) :=
  items.foldl ginsert []

/-- OrderService::prepare_calculations. -/
def prepare_calculations (grouped_items : List CartItemDetail) (shipping_address : Jv) :
    List StoreCalculation :=
  (group_by_store grouped_items).map (fun gi =>
    let subtotal := gi.2.foldl (fun acc item =>
      acc + item.unit_price * (item.quantity : Rat)) 0
    let tax : Rat := 0
    let discount : Rat := 0
    let shipping_cost : Rat := 0
    let total_amount := subtotal + tax + shipping_cost - discount
    { store_id := gi.1, items := gi.2, subtotal := subtotal, tax := tax,
      discount := discount, shipping_cost := shipping_cost,
      total_amount := total_amount, shipping_address := shipping_address })

/-- short_id: the current millisecond timestamp rendered in lowercase hex. -/
def short_id (now_millis : Nat) : String :=
  (Nat.toDigits 16 now_millis).asString

/-- OrderRepository::create_group (INSERT INTO order_groups .. RETURNING *). -/
def OrderRepository.create_group (db : Db) (user_id : Uuid) (group_number : String)
    (total_amount : Rat) (payment_status : PaymentStatus) : OrderGroup × Db :=
  let group : OrderGroup :=
    { id := db.next_id, user_id := user_id, group_number := group_number,
      total_amount := total_amount, payment_status := payment_status }
  (group, { db with next_id := db.next_id + 1, order_groups := db.order_groups ++ [group] })

/-- OrderRepository::create_order (INSERT INTO orders .. RETURNING *;
status takes the table default Pending). -/
def OrderRepository.create_order (db : Db) (order_group_id user_id store_id : Uuid)
    (order_number : String) (subtotal tax discount shipping_cost total_amount : Rat)
    (shipping_address : Jv) : Order × Db :=
  let order : Order :=
    { id := db.next_id, order_group_id := order_group_id, user_id := user_id,
      store_id := store_id, order_number := order_number, status := .Pending,
      subtotal := subtotal, tax := tax, discount := discount,
      shipping_cost := shipping_cost, total_amount := total_amount,
      shipping_address := shipping_address }
  (order, { db with next_id := db.next_id + 1, orders := db.orders ++ [order] })

/-- OrderRepository::create_order_item (INSERT INTO order_items .. RETURNING *). -/
def OrderRepository.create_order_item (db : Db) (order_id product_id : Uuid)
    (quantity : Int) (unit_price subtotal : Rat) : OrderItem × Db :=
  let item : OrderItem :=
    { id := db.next_id, order_id := order_id, product_id := product_id,
      quantity := quantity, unit_price := unit_price, subtotal := subtotal }
  (item, { db with next_id := db.next_id + 1, order_items := db.order_items ++ [item] })

/-- The inner loop of checkout over one store's cart lines: insert the
order item, then conditionally decrement stock, propagating the first
error. -/
def run_lines (order_id : Uuid) : Db → List CartItemDetail → Except AppError Db
  | db, [] => .ok db
  | db, line :: rest =>
    let line_subtotal := line.unit_price * (line.quantity : Rat)
    let r := OrderRepository.create_order_item db order_id line.product_id
      line.quantity line.unit_price line_subtotal
    match ProductRepository.decrement_stock_in_tx r.2 line.product_id line.quantity with
    | .error e => .error e
    | .ok db2 => run_lines order_id db2 rest

/-- The outer loop of checkout over the per-store calculations.  cnt
counts the short_id calls already made (the clock argument gives the
millisecond timestamp observed by each call). -/
def run_stores (user_id group_id : Uuid) (clock : Nat → Nat) :
    List Order → Db → Nat → List StoreCalculation → Except AppError (List Order × Db × Nat)
  | created, db, cnt, [] => .ok (created, db, cnt)
  | created, db, cnt, sc :: rest =>
    let order_number := "ORD-" ++ short_id (clock cnt)
    let r := OrderRepository.create_order db group_id user_id sc.store_id order_number
      sc.subtotal sc.tax sc.discount sc.shipping_cost sc.total_amount
      sc.shipping_address
    match run_lines r.1.id r.2 sc.items with
    | .error e => .error e
    | .ok db2 => run_stores user_id group_id clock (created ++ [r.1]) db2 (cnt + 1) rest

/-- OrderService::checkout.  The transaction is a draft database state:
an error inside the loop discards the draft (rollback) and the caller
keeps the original state; a commit publishes it, after which the cart is
cleared as a separate, non-transactional step. -/
def checkout (db : Db) (clock : Nat → Nat) (user_id : Uuid) (payload : CheckoutRequest) :
    Except AppError CheckoutSummary × Db :=
  match payload.validate with
  | .error e => (.error e, db)
  | .ok () =>
    let items := CartRepository.list_with_products db user_id
    if items.isEmpty then (.error (.BadRequest "Cart is empty"), db)
    else
      let calculations := prepare_calculations items payload.shipping_address
      let group_total := calculations.foldl (fun acc sc => acc + sc.total_amount) 0
      let group_number := "GRP-" ++ short_id (clock 0)
      let r := OrderRepository.create_group db user_id group_number group_total .Pending
      match run_stores user_id r.1.id clock [] r.2 1 calculations with
      | .error e => (.error e, db)
      | .ok (created_orders, db2, _) =>
        let db3 := CartRepository.clear_user db2 user_id
        (.ok { order_group := r.1, orders := created_orders }, db3)

/-- Sequential success condition of the conditional decrements, over the
products table alone (the other tables never influence it). -/
def lines_ok (prods : List Product) : List CartItemDetail → Bool
  | [] => true
  | l :: ls =>
    if prods.countP (dec_matches l.product_id l.quantity) = 0 then false
    else lines_ok (apply_dec prods l.product_id l.quantity) ls

/-- Sequential effect of the conditional decrements on the products table. -/
def apply_decs (prods : List Product) : List CartItemDetail → List Product
  | [] => prods
  | l :: ls => apply_decs (apply_dec prods l.product_id l.quantity) ls

/-- The cart lines in the order the transaction processes them. -/
def tx_lines (calcs : List StoreCalculation) : List CartItemDetail :=
  calcs.flatMap (fun c => c.items)

/-- A first-match lookup returns the unique matching element. -/
theorem find?_eq_some_of_unique {α : Type} {l : List α} {p : α → Bool} {a : α}
    (ha : a ∈ l) (hpa : p a = true)
    (huniq : ∀ x ∈ l, p x = true → x = a) : l.find? p = some a := by
  induction l with
  | nil => cases ha
  | cons b t ih =>
    cases hb : p b with
    | true =>
      rw [List.find?_cons_of_pos _ hb]
      exact congrArg some (huniq b (List.mem_cons_self b t) hb).symm ▸ rfl
    | false =>
      rw [List.find?_cons_of_neg _ (by simp [hb])]
      have hab : a ≠ b := fun h => by rw [h] at hpa; rw [hpa] at hb; cases hb
      have ha' : a ∈ t := by
        cases List.mem_cons.mp ha with
        | inl h => exact absurd h hab
        | inr h => exact h
      exact ih ha' (fun x hx hpx => huniq x (List.mem_cons_of_mem _ hx) hpx)

/-- Keys of the grouping accumulator after one insertion. -/
theorem ginsert_keys (acc : List (Uuid × List CartItemDetail)) (item : CartItemDetail) :
    (ginsert acc item).map Prod.fst =
      if item.store_id ∈ acc.map Prod.fst then acc.map Prod.fst
      else acc.map Prod.fst ++ [item.store_id] := by
  induction acc with
  | nil => simp [ginsert]
  | cons e rest ih =>
    obtain ⟨k, xs⟩ := e
    by_cases hk : k = item.store_id
    · subst hk
      simp [ginsert]
    · rw [show ginsert ((k, xs) :: rest) item = (k, xs) :: ginsert rest item from by
        simp [ginsert, hk]]
      by_cases hmem : item.store_id ∈ rest.map Prod.fst
      · simp [hmem, ih, Ne.symm hk]
      · simp [hmem, ih, Ne.symm hk]

/-- Key membership in the grouping accumulator after one insertion. -/
theorem ginsert_keys_mem (acc : List (Uuid × List CartItemDetail)) (item : CartItemDetail)
    (s : Uuid) :
    (s ∈ (ginsert acc item).map Prod.fst ↔ s ∈ acc.map Prod.fst ∨ s = item.store_id) := by
  rw [ginsert_keys]
  by_cases hmem : item.store_id ∈ acc.map Prod.fst
  · simp only [if_pos hmem]
    constructor
    · exact Or.inl
    · rintro (h | h)
      · exact h
      · exact h ▸ hmem
  · simp [if_neg hmem, or_comm]

/-- Grouping preserves the no-duplicate-keys invariant. -/
theorem ginsert_keys_nodup (acc : List (Uuid × List CartItemDetail)) (item : CartItemDetail)
    (h : (acc.map Prod.fst).Nodup) : ((ginsert acc item).map Prod.fst).Nodup := by
  rw [ginsert_keys]
  by_cases hmem : item.store_id ∈ acc.map Prod.fst
  · simpa [hmem] using h
  · simpa [hmem, List.nodup_append] using h

/-- Value looked up under a key in the grouping accumulator. -/
def gval (acc : List (Uuid × List CartItemDetail)) (s : Uuid) : List CartItemDetail :=
  ((acc.find? (fun e => decide (e.1 = s))).map Prod.snd).getD []

theorem gval_ginsert (acc : List (Uuid × List CartItemDetail)) (item : CartItemDetail)
    (s : Uuid) :
    gval (ginsert acc item) s =
      if s = item.store_id then gval acc s ++ [item] else gval acc s := by
  induction acc with
  | nil =>
    by_cases hs : s = item.store_id
    · subst hs
      simp [ginsert, gval]
    · have hs' : ¬ item.store_id = s := fun h => hs h.symm
      simp [ginsert, gval, hs, hs']
  | cons e rest ih =>
    obtain ⟨k, xs⟩ := e
    by_cases hk : k = item.store_id
    · subst hk
      have hgi : ginsert ((item.store_id, xs) :: rest) item =
          (item.store_id, xs ++ [item]) :: rest := by
        simp [ginsert]
      rw [hgi]
      by_cases hs : s = item.store_id
      · subst hs
        simp [gval]
      · have hs' : ¬ item.store_id = s := fun h => hs h.symm
        simp [gval, hs, hs']
    · have hgi : ginsert ((k, xs) :: rest) item = (k, xs) :: ginsert rest item := by
        simp [ginsert, hk]
      rw [hgi]
      by_cases hs : s = k
      · subst hs
        simp [gval, hk]
      · have hs' : ¬ k = s := fun h => hs h.symm
        have h1 : gval ((k, xs) :: ginsert rest item) s = gval (ginsert rest item) s := by
          simp [gval, List.find?_cons_of_neg, hs']
        have h2 : gval ((k, xs) :: rest) s = gval rest s := by
          simp [gval, List.find?_cons_of_neg, hs']
        rw [h1, h2, ih]

theorem gval_foldl (l : List CartItemDetail) :
    ∀ (acc : List (Uuid × List CartItemDetail)) (s : Uuid),
      gval (l.foldl ginsert acc) s =
        gval acc s ++ l.filter (fun x => decide (x.store_id = s)) := by
  induction l with
  | nil => intro acc s; simp
  | cons item t ih =>
    intro acc s
    rw [List.foldl_cons, ih, gval_ginsert]
    by_cases hs : s = item.store_id
    · subst hs
      rw [if_pos rfl, List.filter_cons]
      simp [List.append_assoc]
    · have hs' : ¬ item.store_id = s := fun h => hs h.symm
      rw [if_neg hs, List.filter_cons]
      simp [hs']

theorem foldl_keys_mem (l : List CartItemDetail) :
    ∀ (acc : List (Uuid × List CartItemDetail)) (s : Uuid),
      (s ∈ (l.foldl ginsert acc).map Prod.fst ↔
        s ∈ acc.map Prod.fst ∨ s ∈ l.map CartItemDetail.store_id) := by
  induction l with
  | nil => intro acc s; simp
  | cons item t ih =>
    intro acc s
    rw [List.foldl_cons, ih, ginsert_keys_mem]
    simp [or_assoc, or_comm, or_left_comm]

theorem foldl_keys_nodup (l : List CartItemDetail) :
    ∀ (acc : List (Uuid × List CartItemDetail)),
      (acc.map Prod.fst).Nodup → ((l.foldl ginsert acc).map Prod.fst).Nodup := by
  induction l with
  | nil => intro acc h; simpa using h
  | cons item t ih =>
    intro acc h
    exact ih _ (ginsert_keys_nodup acc item h)

/-- The keys of group_by_store are exactly the distinct store ids, without
duplicates. -/
theorem group_by_store_keys_mem (items : List CartItemDetail) (s : Uuid) :
    s ∈ (group_by_store items).map Prod.fst ↔ s ∈ items.map CartItemDetail.store_id := by
  rw [group_by_store, foldl_keys_mem]
  simp

theorem group_by_store_keys_nodup (items : List CartItemDetail) :
    ((group_by_store items).map Prod.fst).Nodup := by
  rw [group_by_store]
  exact foldl_keys_nodup items [] (by simp)

theorem group_by_store_length (items : List CartItemDetail) :
    (group_by_store items).length = (items.map CartItemDetail.store_id).toFinset.card := by
  have h1 : (group_by_store items).length = ((group_by_store items).map Prod.fst).length := by
    simp
  have h2 : ((group_by_store items).map Prod.fst).toFinset =
      (items.map CartItemDetail.store_id).toFinset := by
    ext s
    simp only [List.mem_toFinset]
    exact group_by_store_keys_mem items s
  rw [h1, ← List.toFinset_card_of_nodup (group_by_store_keys_nodup items), h2]

/-- In a list with no duplicate keys, equal keys force equal entries. -/
theorem eq_of_nodup_keys {l : List (Uuid × List CartItemDetail)}
    (h : (l.map Prod.fst).Nodup) {e x : Uuid × List CartItemDetail}
    (he : e ∈ l) (hx : x ∈ l) (hk : x.1 = e.1) : x = e := by
  induction l with
  | nil => cases he
  | cons a t ih =>
    simp only [List.map_cons, List.nodup_cons] at h
    obtain ⟨ha, ht⟩ := h
    cases List.mem_cons.mp he with
    | inl he2 =>
      cases List.mem_cons.mp hx with
      | inl hx2 => rw [hx2, he2]
      | inr hx2 =>
        exfalso
        apply ha
        have hx1 : x.1 ∈ t.map Prod.fst := List.mem_map_of_mem Prod.fst hx2
        rw [hk, he2] at hx1
        exact hx1
    | inr he2 =>
      cases List.mem_cons.mp hx with
      | inl hx2 =>
        exfalso
        apply ha
        have he1 : e.1 ∈ t.map Prod.fst := List.mem_map_of_mem Prod.fst he2
        rw [← hk, hx2] at he1
        exact he1
      | inr hx2 => exact ih ht he2 hx2

/-- Each partition of group_by_store is the filter of the cart lines on
its store id. -/
theorem group_by_store_entry (items : List CartItemDetail) (e : Uuid × List CartItemDetail)
    (he : e ∈ group_by_store items) :
    e.2 = items.filter (fun x => decide (x.store_id = e.1)) := by
  have hfind : (group_by_store items).find? (fun x => decide (x.1 = e.1)) = some e :=
    find?_eq_some_of_unique he (by simp)
      (fun x hx hpx =>
        eq_of_nodup_keys (group_by_store_keys_nodup items) he hx (by simpa using hpx))
  have hg := gval_foldl items [] e.1
  rw [show items.foldl ginsert [] = group_by_store items from rfl] at hg
  rw [gval, hfind] at hg
  simpa [gval] using hg

/-- Folding an accumulating sum equals the initial value plus the mapped sum. -/
theorem foldl_add_map {α : Type} (f : α → Rat) (l : List α) :
    ∀ s : Rat, l.foldl (fun acc x => acc + f x) s = s + (l.map f).sum := by
  induction l with
  | nil => intro s; simp
  | cons x t ih =>
    intro s
    rw [List.foldl_cons, ih, List.map_cons, List.sum_cons]
    ring

theorem apply_decs_append (xs : List CartItemDetail) :
    ∀ (ys : List CartItemDetail) (prods : List Product),
      apply_decs prods (xs ++ ys) = apply_decs (apply_decs prods xs) ys := by
  induction xs with
  | nil => intro ys prods; simp [apply_decs]
  | cons l t ih => intro ys prods; simp only [List.cons_append, apply_decs]; exact ih ys _

theorem lines_ok_append (xs : List CartItemDetail) :
    ∀ (ys : List CartItemDetail) (prods : List Product),
      lines_ok prods (xs ++ ys) =
        (lines_ok prods xs && lines_ok (apply_decs prods xs) ys) := by
  induction xs with
  | nil => intro ys prods; simp [lines_ok, apply_decs]
  | cons l t ih =>
    intro ys prods
    by_cases h0 : prods.countP (dec_matches l.product_id l.quantity) = 0
    · simp [lines_ok, h0]
    · simp only [List.cons_append, lines_ok, if_neg h0, apply_decs]
      exact ih ys _

/-- Projection of an order item onto the fields the claims inspect. -/
def item_sig (it : OrderItem) : Uuid × Int × Rat × Rat :=
  (it.product_id, it.quantity, it.unit_price, it.subtotal)

/-- Expected signature of the order item created for a cart line. -/
def line_sig (l : CartItemDetail) : Uuid × Int × Rat × Rat :=
  (l.product_id, l.quantity, l.unit_price, l.unit_price * (l.quantity : Rat))

/-- Success shape of the inner checkout loop: when every sequential
conditional decrement finds enough stock, the loop succeeds, decrements
exactly those stocks, appends one order item per line with its captured
price and subtotal, and touches nothing else. -/
theorem run_lines_ok (oid : Uuid) (ls : List CartItemDetail) :
    ∀ (db : Db), lines_ok db.products ls = true →
      ∃ db2 new_items,
        run_lines oid db ls = .ok db2 ∧
        db2.products = apply_decs db.products ls ∧
        db2.stores = db.stores ∧
        db2.store_members = db.store_members ∧
        db2.access_grants = db.access_grants ∧
        db2.cart_items = db.cart_items ∧
        db2.order_groups = db.order_groups ∧
        db2.orders = db.orders ∧
        db2.order_items = db.order_items ++ new_items ∧
        new_items.map item_sig = ls.map line_sig := by
  induction ls with
  | nil =>
    intro db _
    exact ⟨db, [], rfl, rfl, rfl, rfl, rfl, rfl, rfl, rfl, by simp, by simp⟩
  | cons l t ih =>
    intro db hok
    by_cases h0 : db.products.countP (dec_matches l.product_id l.quantity) = 0
    · rw [show lines_ok db.products (l :: t) = false from by simp [lines_ok, h0]] at hok
      cases hok
    · have hok' : lines_ok (apply_dec db.products l.product_id l.quantity) t = true := by
        rw [show lines_ok db.products (l :: t) =
          lines_ok (apply_dec db.products l.product_id l.quantity) t from by
            simp [lines_ok, h0]] at hok
        exact hok
      obtain ⟨db2, new_items, heq, hprod, hst, hmem, hgr, hci, hog, hor, hoi, hmap⟩ :=
        ih { db with
              next_id := db.next_id + 1,
              order_items := db.order_items ++
                [{ id := db.next_id, order_id := oid, product_id := l.product_id,
                   quantity := l.quantity, unit_price := l.unit_price,
                   subtotal := l.unit_price * (l.quantity : Rat) }],
              products := apply_dec db.products l.product_id l.quantity } hok'
      refine ⟨db2,
        { id := db.next_id, order_id := oid, product_id := l.product_id,
          quantity := l.quantity, unit_price := l.unit_price,
          subtotal := l.unit_price * (l.quantity : Rat) } :: new_items, ?_, ?_, ?_, ?_, ?_, ?_, ?_, ?_, ?_, ?_⟩
      · rw [show run_lines oid db (l :: t) =
          run_lines oid { db with
            next_id := db.next_id + 1,
            order_items := db.order_items ++
              [{ id := db.next_id, order_id := oid, product_id := l.product_id,
                 quantity := l.quantity, unit_price := l.unit_price,
                 subtotal := l.unit_price * (l.quantity : Rat) }],
            products := apply_dec db.products l.product_id l.quantity } t from by
          simp only [run_lines, OrderRepository.create_order_item,
            ProductRepository.decrement_stock_in_tx]
          rw [if_neg h0]]
        exact heq
      · rw [hprod]; rfl
      · exact hst
      · exact hmem
      · exact hgr
      · exact hci
      · exact hog
      · exact hor
      · rw [hoi]; simp
      · simp only [List.map_cons, hmap]; rfl

/-- Failure shape of the inner checkout loop: the first conditional
decrement that finds too little stock aborts with the Conflict error. -/
theorem run_lines_err (oid : Uuid) (ls : List CartItemDetail) :
    ∀ (db : Db), lines_ok db.products ls = false →
      run_lines oid db ls = .error (.Conflict "Insufficient stock") := by
  induction ls with
  | nil => intro db h; simp [lines_ok] at h
  | cons l t ih =>
    intro db hok
    by_cases h0 : db.products.countP (dec_matches l.product_id l.quantity) = 0
    · simp only [run_lines, OrderRepository.create_order_item,
        ProductRepository.decrement_stock_in_tx]
      rw [if_pos h0]
    · have hok' : lines_ok (apply_dec db.products l.product_id l.quantity) t = false := by
        rw [show lines_ok db.products (l :: t) =
          lines_ok (apply_dec db.products l.product_id l.quantity) t from by
            simp [lines_ok, h0]] at hok
        exact hok
      rw [show run_lines oid db (l :: t) =
        run_lines oid { db with
          next_id := db.next_id + 1,
          order_items := db.order_items ++
            [{ id := db.next_id, order_id := oid, product_id := l.product_id,
               quantity := l.quantity, unit_price := l.unit_price,
               subtotal := l.unit_price * (l.quantity : Rat) }],
          products := apply_dec db.products l.product_id l.quantity } t from by
        simp only [run_lines, OrderRepository.create_order_item,
          ProductRepository.decrement_stock_in_tx]
        rw [if_neg h0]]
      exact ih _ hok'

/-- Projection of an order onto the monetary fields the claims inspect. -/
def order_sig (o : Order) : Uuid × Rat × Rat × Rat × Rat × Rat :=
  (o.store_id, o.subtotal, o.tax, o.discount, o.shipping_cost, o.total_amount)

/-- The same projection on a per-store calculation. -/
def calc_sig (c : StoreCalculation) : Uuid × Rat × Rat × Rat × Rat × Rat :=
  (c.store_id, c.subtotal, c.tax, c.discount, c.shipping_cost, c.total_amount)

/-- Success shape of the per-store checkout loop. -/
theorem run_stores_ok (uid gid : Uuid) (clock : Nat → Nat) (calcs : List StoreCalculation) :
    ∀ (created : List Order) (db : Db) (cnt : Nat),
      lines_ok db.products (tx_lines calcs) = true →
      ∃ orders2 db2 new_items,
        run_stores uid gid clock created db cnt calcs =
          .ok (created ++ orders2, db2, cnt + calcs.length) ∧
        orders2.map order_sig = calcs.map calc_sig ∧
        db2.products = apply_decs db.products (tx_lines calcs) ∧
        db2.stores = db.stores ∧
        db2.store_members = db.store_members ∧
        db2.access_grants = db.access_grants ∧
        db2.cart_items = db.cart_items ∧
        db2.order_groups = db.order_groups ∧
        db2.orders = db.orders ++ orders2 ∧
        db2.order_items = db.order_items ++ new_items ∧
        new_items.map item_sig = (tx_lines calcs).map line_sig := by
  induction calcs with
  | nil =>
    intro created db cnt _
    exact ⟨[], db, [], by simp [run_stores], by simp, by simp [tx_lines, apply_decs],
      rfl, rfl, rfl, rfl, rfl, by simp, by simp, by simp [tx_lines]⟩
  | cons sc rest ih =>
    intro created db cnt hok
    have htx : tx_lines (sc :: rest) = sc.items ++ tx_lines rest := by simp [tx_lines]
    rw [htx, lines_ok_append, Bool.and_eq_true] at hok
    obtain ⟨hok1, hok2⟩ := hok
    obtain ⟨db2, new1, heq1, hprod1, hst1, hmem1, hgr1, hci1, hog1, hor1, hoi1, hmap1⟩ :=
      run_lines_ok db.next_id sc.items
        { db with
          next_id := db.next_id + 1,
          orders := db.orders ++
            [{ id := db.next_id, order_group_id := gid, user_id := uid,
               store_id := sc.store_id,
               order_number := "ORD-" ++ short_id (clock cnt), status := .Pending,
               subtotal := sc.subtotal, tax := sc.tax, discount := sc.discount,
               shipping_cost := sc.shipping_cost, total_amount := sc.total_amount,
               shipping_address := sc.shipping_address }] } hok1
    have hok2' : lines_ok db2.products (tx_lines rest) = true := by
      rw [hprod1]; exact hok2
    obtain ⟨orders2, db3, new2, heq2, hsig2, hprod2, hst2, hmem2, hgr2, hci2, hog2,
      hor2, hoi2, hmap2⟩ := ih
        (created ++
          [{ id := db.next_id, order_group_id := gid, user_id := uid,
             store_id := sc.store_id,
             order_number := "ORD-" ++ short_id (clock cnt), status := .Pending,
             subtotal := sc.subtotal, tax := sc.tax, discount := sc.discount,
             shipping_cost := sc.shipping_cost, total_amount := sc.total_amount,
             shipping_address := sc.shipping_address }]) db2 (cnt + 1) hok2'
    refine ⟨{ id := db.next_id, order_group_id := gid, user_id := uid,
              store_id := sc.store_id,
              order_number := "ORD-" ++ short_id (clock cnt), status := .Pending,
              subtotal := sc.subtotal, tax := sc.tax, discount := sc.discount,
              shipping_cost := sc.shipping_cost, total_amount := sc.total_amount,
              shipping_address := sc.shipping_address } :: orders2, db3, new1 ++ new2,
      ?_, ?_, ?_, ?_, ?_, ?_, ?_, ?_, ?_, ?_, ?_⟩
    · have hstep : run_stores uid gid clock created db cnt (sc :: rest) =
          run_stores uid gid clock
            (created ++
              [{ id := db.next_id, order_group_id := gid, user_id := uid,
                 store_id := sc.store_id,
                 order_number := "ORD-" ++ short_id (clock cnt), status := .Pending,
                 subtotal := sc.subtotal, tax := sc.tax, discount := sc.discount,
                 shipping_cost := sc.shipping_cost, total_amount := sc.total_amount,
                 shipping_address := sc.shipping_address }]) db2 (cnt + 1) rest := by
        simp only [run_stores, OrderRepository.create_order]
        rw [heq1]
      rw [hstep, heq2]
      have hcnt : cnt + 1 + rest.length = cnt + (sc :: rest).length := by
        simp [List.length_cons]; omega
      rw [hcnt]
      simp [List.append_assoc]
    · simp only [List.map_cons, hsig2]; rfl
    · rw [hprod2, hprod1, htx, apply_decs_append]
    · rw [hst2, hst1]
    · rw [hmem2, hmem1]
    · rw [hgr2, hgr1]
    · rw [hci2, hci1]
    · rw [hog2, hog1]
    · rw [hor2, hor1]; simp [List.append_assoc]
    · rw [hoi2, hoi1]; simp [List.append_assoc]
    · rw [htx]; simp only [List.map_append, hmap1, hmap2]

/-- Failure shape of the per-store checkout loop: a failed conditional
decrement anywhere aborts the whole loop with the Conflict error. -/
theorem run_stores_err (uid gid : Uuid) (clock : Nat → Nat) (calcs : List StoreCalculation) :
    ∀ (created : List Order) (db : Db) (cnt : Nat),
      lines_ok db.products (tx_lines calcs) = false →
      run_stores uid gid clock created db cnt calcs =
        .error (.Conflict "Insufficient stock") := by
  induction calcs with
  | nil => intro created db cnt h; simp [tx_lines, lines_ok] at h
  | cons sc rest ih =>
    intro created db cnt hok
    have htx : tx_lines (sc :: rest) = sc.items ++ tx_lines rest := by simp [tx_lines]
    rw [htx, lines_ok_append] at hok
    by_cases h1 : lines_ok db.products sc.items = true
    · rw [h1, Bool.true_and] at hok
      obtain ⟨db2, new1, heq1, hprod1, hst1, hmem1, hgr1, hci1, hog1, hor1, hoi1, hmap1⟩ :=
        run_lines_ok db.next_id sc.items
          { db with
            next_id := db.next_id + 1,
            orders := db.orders ++
              [{ id := db.next_id, order_group_id := gid, user_id := uid,
                 store_id := sc.store_id,
                 order_number := "ORD-" ++ short_id (clock cnt), status := .Pending,
                 subtotal := sc.subtotal, tax := sc.tax, discount := sc.discount,
                 shipping_cost := sc.shipping_cost, total_amount := sc.total_amount,
                 shipping_address := sc.shipping_address }] } h1
      have hok2 : lines_ok db2.products (tx_lines rest) = false := by
        rw [hprod1]; exact hok
      have hstep : run_stores uid gid clock created db cnt (sc :: rest) =
          run_stores uid gid clock
            (created ++
              [{ id := db.next_id, order_group_id := gid, user_id := uid,
                 store_id := sc.store_id,
                 order_number := "ORD-" ++ short_id (clock cnt), status := .Pending,
                 subtotal := sc.subtotal, tax := sc.tax, discount := sc.discount,
                 shipping_cost := sc.shipping_cost, total_amount := sc.total_amount,
                 shipping_address := sc.shipping_address }]) db2 (cnt + 1) rest := by
        simp only [run_stores, OrderRepository.create_order]
        rw [heq1]
      rw [hstep]
      exact ih _ db2 (cnt + 1) hok2
    · have h1' : lines_ok db.products sc.items = false := by
        cases h : lines_ok db.products sc.items
        · rfl
        · exact absurd h h1
      have herr : run_lines db.next_id
          { db with
            next_id := db.next_id + 1,
            orders := db.orders ++
              [{ id := db.next_id, order_group_id := gid, user_id := uid,
                 store_id := sc.store_id,
                 order_number := "ORD-" ++ short_id (clock cnt), status := .Pending,
                 subtotal := sc.subtotal, tax := sc.tax, discount := sc.discount,
                 shipping_cost := sc.shipping_cost, total_amount := sc.total_amount,
                 shipping_address := sc.shipping_address }] } sc.items =
          .error (.Conflict "Insufficient stock") :=
        run_lines_err db.next_id sc.items _ h1'
      simp only [run_stores, OrderRepository.create_order]
      rw [herr]

/-- A user with no cart rows lists an empty cart. -/
theorem list_with_products_nil (db : Db) (u : Uuid)
    (h : ∀ c ∈ db.cart_items, ¬ c.user_id = u) :
    CartRepository.list_with_products db u = [] := by
  rw [CartRepository.list_with_products, List.filterMap_eq_nil_iff]
  intro c hc
  simp [h c hc]

/-- Checkout aborts with the stock Conflict error, publishing nothing,
whenever the sequential conditional decrements cannot all succeed. -/
theorem checkout_stock_fail (db : Db) (clock : Nat → Nat) (user_id : Uuid)
    (payload : CheckoutRequest) (hv : payload.validate = .ok ())
    (hlo : lines_ok db.products
      (tx_lines (prepare_calculations (CartRepository.list_with_products db user_id)
        payload.shipping_address)) = false) :
    checkout db clock user_id payload = (.error (.Conflict "Insufficient stock"), db) := by
  have hne : (CartRepository.list_with_products db user_id).isEmpty = false := by
    cases hni : CartRepository.list_with_products db user_id with
    | nil => rw [hni] at hlo; simp [prepare_calculations, group_by_store, tx_lines, lines_ok] at hlo
    | cons a t => simp
  have herr := run_stores_err user_id db.next_id clock
    (prepare_calculations (CartRepository.list_with_products db user_id)
      payload.shipping_address) []
    { db with
      next_id := db.next_id + 1,
      order_groups := db.order_groups ++
        [{ id := db.next_id, user_id := user_id,
           group_number := "GRP-" ++ short_id (clock 0),
           total_amount := (prepare_calculations
             (CartRepository.list_with_products db user_id)
             payload.shipping_address).foldl (fun acc sc => acc + sc.total_amount) 0,
           payment_status := .Pending }] } 1 hlo
  simp only [checkout, hv]
  rw [if_neg (by rw [hne]; simp)]
  simp only [OrderRepository.create_group]
  rw [herr]

/-- Success shape of checkout: a committed transaction appends exactly one
order group, the per-store orders carrying the prepared monetary figures,
one order item per cart line with the captured price, decrements the
stocks sequentially, and then clears the user's cart. -/
theorem checkout_success (db : Db) (clock : Nat → Nat) (user_id : Uuid)
    (payload : CheckoutRequest) (hv : payload.validate = .ok ())
    (hne : (CartRepository.list_with_products db user_id).isEmpty = false)
    (hlo : lines_ok db.products
      (tx_lines (prepare_calculations (CartRepository.list_with_products db user_id)
        payload.shipping_address)) = true) :
    ∃ g orders2 db2 new_items,
      checkout db clock user_id payload = (.ok { order_group := g, orders := orders2 }, db2) ∧
      g.id = db.next_id ∧
      g.user_id = user_id ∧
      g.group_number = "GRP-" ++ short_id (clock 0) ∧
      g.payment_status = .Pending ∧
      g.total_amount = ((prepare_calculations (CartRepository.list_with_products db user_id)
        payload.shipping_address).map StoreCalculation.total_amount).sum ∧
      orders2.map order_sig = (prepare_calculations
        (CartRepository.list_with_products db user_id)
        payload.shipping_address).map calc_sig ∧
      db2.order_groups = db.order_groups ++ [g] ∧
      db2.orders = db.orders ++ orders2 ∧
      db2.order_items = db.order_items ++ new_items ∧
      new_items.map item_sig = (tx_lines (prepare_calculations
        (CartRepository.list_with_products db user_id)
        payload.shipping_address)).map line_sig ∧
      db2.products = apply_decs db.products (tx_lines (prepare_calculations
        (CartRepository.list_with_products db user_id) payload.shipping_address)) ∧
      db2.stores = db.stores ∧
      db2.store_members = db.store_members ∧
      db2.access_grants = db.access_grants ∧
      db2.cart_items = db.cart_items.filter (fun c => decide (c.user_id ≠ user_id)) := by
  obtain ⟨orders2, db', new_items, heq, hsig, hprod, hst, hmem, hgr, hci, hog, hor,
    hoi, hmap⟩ :=
    run_stores_ok user_id db.next_id clock
      (prepare_calculations (CartRepository.list_with_products db user_id)
        payload.shipping_address) []
      { db with
        next_id := db.next_id + 1,
        order_groups := db.order_groups ++
          [{ id := db.next_id, user_id := user_id,
             group_number := "GRP-" ++ short_id (clock 0),
             total_amount := (prepare_calculations
               (CartRepository.list_with_products db user_id)
               payload.shipping_address).foldl (fun acc sc => acc + sc.total_amount) 0,
             payment_status := .Pending }] } 1 hlo
  refine ⟨{ id := db.next_id, user_id := user_id,
            group_number := "GRP-" ++ short_id (clock 0),
            total_amount := (prepare_calculations
              (CartRepository.list_with_products db user_id)
              payload.shipping_address).foldl (fun acc sc => acc + sc.total_amount) 0,
            payment_status := .Pending },
    orders2, CartRepository.clear_user db' user_id, new_items,
    ?_, rfl, rfl, rfl, rfl, ?_, hsig, ?_, ?_, ?_, hmap, ?_, ?_, ?_, ?_, ?_⟩
  · simp only [checkout, hv]
    rw [if_neg (by rw [hne]; simp)]
    simp only [OrderRepository.create_group]
    rw [heq]
    simp
  · simp [foldl_add_map StoreCalculation.total_amount]
  · rw [CartRepository.clear_user]
    simp only [hog]
  · rw [CartRepository.clear_user]
    simp only [hor]
  · rw [CartRepository.clear_user]
    simp only [hoi]
  · rw [CartRepository.clear_user]
    simp only [hprod]
  · rw [CartRepository.clear_user]
    simp only [hst]
  · rw [CartRepository.clear_user]
    simp only [hmem]
  · rw [CartRepository.clear_user]
    simp only [hgr]
  · rw [CartRepository.clear_user]
    simp only [hci]

/-- The conditional decrement's effect, written as the row mapping of the
underlying UPDATE statement. -/
theorem apply_dec_eq_map (prods : List Product) (pid : Uuid) (qty : Int) :
    apply_dec prods pid qty = prods.map (fun p =>
      if p.id = pid ∧ qty ≤ p.stock_quantity then
        { p with stock_quantity := p.stock_quantity - qty }
      else p) := by
  unfold apply_dec
  congr 1
  funext p
  by_cases h : p.id = pid ∧ qty ≤ p.stock_quantity
  · rw [if_pos (show dec_matches pid qty p = true from by
      simp [dec_matches]; exact h), if_pos h]
  · rw [if_neg (show ¬ dec_matches pid qty p = true from by
      simpa [dec_matches] using h), if_neg h]

/-- C1: a stock-insufficiency discovered at any conditional decrement
inside the checkout transaction makes the whole call fail with the
Conflict error and leaves the database exactly as it was: no order
group, order, or order item from this call is visible and no stock is
changed, including work already done for other stores' lines. -/
theorem checkout_insufficient_stock_rolls_back (db : Db) (clock : Nat → Nat)
    (user_id : Uuid) (payload : CheckoutRequest) (hv : payload.validate = .ok ())
    (hlo : lines_ok db.products
      (tx_lines (prepare_calculations (CartRepository.list_with_products db user_id)
        payload.shipping_address)) = false) :
    checkout db clock user_id payload = (.error (.Conflict "Insufficient stock"), db) :=
  checkout_stock_fail db clock user_id payload hv hlo

def exPayload : CheckoutRequest :=
  { shipping_address := .obj [("line1", .str "123 Main St")] }

def exDbC1 : Db :=
  { stores := [{ id := 10, owner_id := 1, name := "A", is_private := false, status := .Active },
               { id := 20, owner_id := 2, name := "B", is_private := false, status := .Active }]
    products := [{ id := 1, store_id := 10, name := "P", price := 5, stock_quantity := 1,
                   is_active := true },
                 { id := 2, store_id := 20, name := "Q", price := 3, stock_quantity := 10,
                   is_active := true }]
    store_members := []
    access_grants := []
    cart_items := [{ id := 100, user_id := 7, product_id := 2, quantity := 1 },
                   { id := 101, user_id := 7, product_id := 1, quantity := 2 }]
    order_groups := [], orders := [], order_items := [], next_id := 0 }

/-- C1 witness: a two-store cart where the second store's line lacks
stock; checkout fails with Conflict and the state is untouched. -/
theorem checkout_insufficient_stock_rolls_back_witness :
    checkout exDbC1 (fun _ => 0) 7 exPayload =
      (.error (.Conflict "Insufficient stock"), exDbC1) :=
  checkout_insufficient_stock_rolls_back exDbC1 (fun _ => 0) 7 exPayload (by rfl) (by rfl)

/-- C7: checkout on an empty cart fails with BadRequest before the
transaction and changes nothing. -/
theorem checkout_empty_cart_rejected (db : Db) (clock : Nat → Nat) (user_id : Uuid)
    (payload : CheckoutRequest) (hv : payload.validate = .ok ())
    (he : CartRepository.list_with_products db user_id = []) :
    checkout db clock user_id payload = (.error (.BadRequest "Cart is empty"), db) := by
  simp [checkout, hv, he]

def exDb7 : Db :=
  { stores := [], products := [], store_members := [], access_grants := [],
    cart_items := [], order_groups := [], orders := [], order_items := [], next_id := 0 }

/-- C7 witness: checkout of a user with no cart rows. -/
theorem checkout_empty_cart_rejected_witness :
    checkout exDb7 (fun _ => 0) 7 exPayload =
      (.error (.BadRequest "Cart is empty"), exDb7) :=
  checkout_empty_cart_rejected exDb7 (fun _ => 0) 7 exPayload (by rfl) (by rfl)

/-- C10: for nonnegative stocks and a nonnegative quantity, the
conditional stock decrement either subtracts the quantity from exactly
the rows that still have enough stock, leaving every stock nonnegative,
or fails with the Conflict error leaving the table untouched; the
failure happens exactly when no row with the product id has enough
stock. -/
theorem decrement_stock_safety (db : Db) (product_id : Uuid) (qty : Int)
    (hq : 0 ≤ qty) (hnn : ∀ p ∈ db.products, 0 ≤ p.stock_quantity) :
    (∀ r, ProductRepository.decrement_stock db product_id qty = (.ok (), r) →
       r.products = db.products.map (fun p =>
         if p.id = product_id ∧ qty ≤ p.stock_quantity then
           { p with stock_quantity := p.stock_quantity - qty }
         else p) ∧
       (∀ p ∈ r.products, 0 ≤ p.stock_quantity)) ∧
    (∀ e r, ProductRepository.decrement_stock db product_id qty = (.error e, r) →
       e = .Conflict "Insufficient stock" ∧ r = db) ∧
    ((∃ e r, ProductRepository.decrement_stock db product_id qty = (.error e, r)) ↔
       ∀ p ∈ db.products, p.id = product_id → p.stock_quantity < qty) := by
  by_cases h0 : db.products.countP (dec_matches product_id qty) = 0
  · refine ⟨?_, ?_, ?_⟩
    · intro r hr
      rw [ProductRepository.decrement_stock, ProductRepository.decrement_stock_in_tx,
        if_pos h0] at hr
      simp at hr
    · intro e r hr
      rw [ProductRepository.decrement_stock, ProductRepository.decrement_stock_in_tx,
        if_pos h0] at hr
      simp only [Prod.mk.injEq] at hr
      obtain ⟨h1, h2⟩ := hr
      exact ⟨(Except.error.injEq _ _).mp h1.symm ▸ rfl, h2.symm⟩
    · constructor
      · intro _
        intro p hp hid
        have := List.countP_eq_zero.mp h0 p hp
        simp only [dec_matches, Bool.and_eq_true, decide_eq_true_eq, not_and] at this
        exact lt_of_not_le (this hid)
      · intro _
        exact ⟨.Conflict "Insufficient stock", db, by
          rw [ProductRepository.decrement_stock, ProductRepository.decrement_stock_in_tx,
            if_pos h0]⟩
  · refine ⟨?_, ?_, ?_⟩
    · intro r hr
      rw [ProductRepository.decrement_stock, ProductRepository.decrement_stock_in_tx,
        if_neg h0] at hr
      simp only [Prod.mk.injEq] at hr
      obtain ⟨-, h2⟩ := hr
      constructor
      · rw [← h2]
        exact apply_dec_eq_map db.products product_id qty
      · intro p hp
        rw [← h2] at hp
        simp only at hp
        rw [apply_dec_eq_map] at hp
        obtain ⟨a, ha, rfl⟩ := List.mem_map.mp hp
        by_cases hc : a.id = product_id ∧ qty ≤ a.stock_quantity
        · rw [if_pos hc]
          simpa using Int.sub_nonneg.mpr hc.2
        · rw [if_neg hc]
          exact hnn a ha
    · intro e r hr
      rw [ProductRepository.decrement_stock, ProductRepository.decrement_stock_in_tx,
        if_neg h0] at hr
      simp at hr
    · constructor
      · rintro ⟨e, r, her⟩
        rw [ProductRepository.decrement_stock, ProductRepository.decrement_stock_in_tx,
          if_neg h0] at her
        simp at her
      · intro hall
        exfalso
        apply h0
        refine List.countP_eq_zero.mpr ?_
        intro p hp
        simp only [dec_matches, Bool.and_eq_true, decide_eq_true_eq, not_and]
        intro hid
        exact not_le.mpr (hall p hp hid)

def exDb10 : Db :=
  { stores := [], store_members := [], access_grants := [], cart_items := [],
    products := [{ id := 1, store_id := 10, name := "P", price := 5, stock_quantity := 5,
                   is_active := true }],
    order_groups := [], orders := [], order_items := [], next_id := 0 }

/-- C10 witness: decrementing 3 units from a product holding 5. -/
theorem decrement_stock_safety_witness :
    (∀ r, ProductRepository.decrement_stock exDb10 1 3 = (.ok (), r) →
       r.products = exDb10.products.map (fun p =>
         if p.id = 1 ∧ 3 ≤ p.stock_quantity then
           { p with stock_quantity := p.stock_quantity - 3 }
         else p) ∧
       (∀ p ∈ r.products, 0 ≤ p.stock_quantity)) ∧
    (∀ e r, ProductRepository.decrement_stock exDb10 1 3 = (.error e, r) →
       e = .Conflict "Insufficient stock" ∧ r = exDb10) ∧
    ((∃ e r, ProductRepository.decrement_stock exDb10 1 3 = (.error e, r)) ↔
       ∀ p ∈ exDb10.products, p.id = 1 → p.stock_quantity < 3) :=
  decrement_stock_safety exDb10 1 3 (by decide) (by decide)

theorem grant_active_iff (now : Nat) (store_id user_id : Uuid) (g : StoreAccessGrant) :
    grant_active now store_id user_id g = true ↔
      g.store_id = store_id ∧ g.user_id = user_id ∧ g.is_revoked = false ∧
        (g.expires_at = none ∨ ∃ t, g.expires_at = some t ∧ now < t) := by
  unfold grant_active
  cases he : g.expires_at with
  | none => simp [he, and_assoc]
  | some t => simp [he, and_assoc]

theorem access_allows_iff (level : AccessLevel) (p : Permission) :
    access_allows level p = true ↔
      ((level = .View ∧ (p = .ViewProducts ∨ p = .ViewOrders)) ∨
       (level = .ViewAndBuy ∧
        (p = .ViewProducts ∨ p = .ViewOrders ∨ p = .ProcessOrders))) := by
  cases level <;> simp [access_allows]

/-- The access-grant step of ensure_store_permission in isolation:
look up an active grant and test the implied permission set. -/
def grant_allows_step (db : Db) (now : Nat) (store_id user_id : Uuid)
    (permission : Permission) : Bool :=
  ((AccessGrantRepository.find_active db now store_id user_id).map
    (fun grant => access_allows grant.access_level permission)).getD false

/-- C5: assuming at most one active grant per (store, user) row set, the
grant step succeeds exactly when a stored grant for the pair is not
revoked, not expired, and implies the permission (View implying the two
view permissions, ViewAndBuy additionally ProcessOrders); and when every
stored grant for the pair is revoked or expired, the lookup and the step
behave as if no grant existed. -/
theorem access_grant_step_characterization (db : Db) (now : Nat)
    (store_id user_id : Uuid) (p : Permission)
    (huniq : ∀ g1 ∈ db.access_grants, ∀ g2 ∈ db.access_grants,
      grant_active now store_id user_id g1 = true →
      grant_active now store_id user_id g2 = true → g1 = g2) :
    (grant_allows_step db now store_id user_id p = true ↔
      ∃ g ∈ db.access_grants, g.store_id = store_id ∧ g.user_id = user_id ∧
        g.is_revoked = false ∧
        (g.expires_at = none ∨ ∃ t, g.expires_at = some t ∧ now < t) ∧
        ((g.access_level = .View ∧ (p = .ViewProducts ∨ p = .ViewOrders)) ∨
         (g.access_level = .ViewAndBuy ∧
          (p = .ViewProducts ∨ p = .ViewOrders ∨ p = .ProcessOrders)))) ∧
    ((∀ g ∈ db.access_grants, g.store_id = store_id → g.user_id = user_id →
        (g.is_revoked = true ∨ ∃ t, g.expires_at = some t ∧ t ≤ now)) →
      AccessGrantRepository.find_active db now store_id user_id = none ∧
      grant_allows_step db now store_id user_id p = false) := by
  constructor
  · constructor
    · intro h
      unfold grant_allows_step at h
      cases hf : AccessGrantRepository.find_active db now store_id user_id with
      | none => rw [hf] at h; simp at h
      | some g0 =>
        rw [hf] at h
        simp only [Option.map_some', Option.getD_some] at h
        rw [AccessGrantRepository.find_active] at hf
        have hmem0 := List.mem_of_find?_eq_some hf
        have hact0 := List.find?_some hf
        rw [grant_active_iff] at hact0
        obtain ⟨h1, h2, h3, h4⟩ := hact0
        exact ⟨g0, hmem0, h1, h2, h3, h4, (access_allows_iff g0.access_level p).mp h⟩
    · rintro ⟨g, hgm, h1, h2, h3, h4, h5⟩
      have hact : grant_active now store_id user_id g = true :=
        (grant_active_iff now store_id user_id g).mpr ⟨h1, h2, h3, h4⟩
      have hal : access_allows g.access_level p = true :=
        (access_allows_iff g.access_level p).mpr h5
      cases hf : AccessGrantRepository.find_active db now store_id user_id with
      | none =>
        rw [AccessGrantRepository.find_active] at hf
        exact absurd hact (List.find?_eq_none.mp hf g hgm)
      | some g0 =>
        have hf' := hf
        rw [AccessGrantRepository.find_active] at hf'
        have hmem0 := List.mem_of_find?_eq_some hf'
        have hact0 := List.find?_some hf'
        have hgg : g = g0 := huniq g hgm g0 hmem0 hact hact0
        unfold grant_allows_step
        rw [hf]
        simp only [Option.map_some', Option.getD_some]
        rw [← hgg]
        exact hal
  · intro hdead
    have hnone : AccessGrantRepository.find_active db now store_id user_id = none := by
      rw [AccessGrantRepository.find_active]
      refine List.find?_eq_none.mpr ?_
      intro g hgm hact
      rw [grant_active_iff] at hact
      obtain ⟨h1, h2, h3, h4⟩ := hact
      rcases hdead g hgm h1 h2 with hrev | ⟨t, ht, htle⟩
      · rw [h3] at hrev; cases hrev
      · rcases h4 with hno | ⟨t2, ht2, hlt⟩
        · rw [hno] at ht; cases ht
        · rw [ht2] at ht
          injection ht with hteq
          subst hteq
          exact absurd hlt (not_lt.mpr htle)
    refine ⟨hnone, ?_⟩
    unfold grant_allows_step
    rw [hnone]
    rfl

def exDb5 : Db :=
  { stores := [], products := [], store_members := [], cart_items := [],
    access_grants := [{ id := 1, store_id := 10, user_id := 7, granted_by := 1,
                        access_level := .ViewAndBuy, expires_at := some 1000,
                        is_revoked := false, revoked_at := none }],
    order_groups := [], orders := [], order_items := [], next_id := 0 }

/-- C5 witness: one unexpired ViewAndBuy grant at time 500. -/
theorem access_grant_step_characterization_witness :
    (grant_allows_step exDb5 500 10 7 .ProcessOrders = true ↔
      ∃ g ∈ exDb5.access_grants, g.store_id = 10 ∧ g.user_id = 7 ∧
        g.is_revoked = false ∧
        (g.expires_at = none ∨ ∃ t, g.expires_at = some t ∧ 500 < t) ∧
        ((g.access_level = .View ∧
          (Permission.ProcessOrders = .ViewProducts ∨
           Permission.ProcessOrders = .ViewOrders)) ∨
         (g.access_level = .ViewAndBuy ∧
          (Permission.ProcessOrders = .ViewProducts ∨
           Permission.ProcessOrders = .ViewOrders ∨
           Permission.ProcessOrders = .ProcessOrders)))) ∧
    ((∀ g ∈ exDb5.access_grants, g.store_id = 10 → g.user_id = 7 →
        (g.is_revoked = true ∨ ∃ t, g.expires_at = some t ∧ t ≤ 500)) →
      AccessGrantRepository.find_active exDb5 500 10 7 = none ∧
      grant_allows_step exDb5 500 10 7 .ProcessOrders = false) :=
  access_grant_step_characterization exDb5 500 10 7 .ProcessOrders (by decide)

/-- C4: an active membership check always allows Owner and Admin roles,
whatever the stored permissions value is; for any other role it allows
exactly when some string element of the stored permission array matches
the permission's canonical string up to ASCII case. -/
theorem member_check_characterization (perms : Jv) (role : MemberRole) (p : Permission) :
    ((role = .Owner ∨ role = .Admin) → member_has_permission perms role p = true) ∧
    (¬(role = .Owner ∨ role = .Admin) →
      (member_has_permission perms role p = true ↔
        ∃ v ∈ (perms.as_array.getD []), ∃ s, v.as_str = some s ∧
          eq_ignore_ascii_case s p.as_str = true)) := by
  constructor
  · intro h
    unfold member_has_permission
    rw [if_pos h]
  · intro h
    unfold member_has_permission
    rw [if_neg h]
    cases ha : perms.as_array with
    | none =>
      simp only [ha, Option.getD_none]
      constructor
      · intro hfalse; cases hfalse
      · rintro ⟨v, hv, -⟩; cases hv
    | some list =>
      simp only [ha, Option.getD_some]
      rw [List.any_eq_true]
      constructor
      · rintro ⟨s, hsmem, hseq⟩
        obtain ⟨v, hvmem, hvs⟩ := List.mem_filterMap.mp hsmem
        exact ⟨v, hvmem, s, hvs, hseq⟩
      · rintro ⟨v, hvmem, s, hvs, hseq⟩
        exact ⟨s, List.mem_filterMap.mpr ⟨v, hvmem, hvs⟩, hseq⟩

/-- C4 witness: Owner with an empty permission array is allowed anything;
Staff is allowed exactly what its array contains, case-insensitively. -/
theorem member_check_characterization_witness :
    member_has_permission (.arr []) .Owner .ViewStats = true ∧
    (member_has_permission (.arr [.str "view_products"]) .Staff .ViewProducts = true ↔
      ∃ v ∈ ((Jv.arr [.str "view_products"]).as_array.getD []), ∃ s, v.as_str = some s ∧
        eq_ignore_ascii_case s Permission.ViewProducts.as_str = true) :=
  ⟨(member_check_characterization (.arr []) .Owner .ViewStats).1 (Or.inl rfl),
   (member_check_characterization (.arr [.str "view_products"]) .Staff .ViewProducts).2
     (by simp)⟩

/-- The authorization contract as the spec words it (section 4.1): the
store-existence precondition fails NotFound first; then, first match
wins: an active membership passing the membership check allows; else a
non-private store allows exactly ViewProducts and ViewOrders; else an
active access grant whose implied set holds the permission allows; else
the call fails with an Authorization error. -/
def authorize_spec (db : Db) (now : Nat) (user_id store_id : Uuid)
    (permission : Permission) : Except AppError Unit :=
  match StoreRepository.find_by_id db store_id with
  | none => .error (.NotFound "Store not found")
  | some store =>
    if ∃ m ∈ db.store_members, m.store_id = store_id ∧ m.user_id = user_id ∧
        m.is_active = true ∧ member_has_permission m.permissions m.role permission = true then
      .ok ()
    else if store.is_private = false ∧
        (permission = .ViewProducts ∨ permission = .ViewOrders) then
      .ok ()
    else if ∃ g ∈ db.access_grants, g.store_id = store_id ∧ g.user_id = user_id ∧
        g.is_revoked = false ∧
        (g.expires_at = none ∨ ∃ t, g.expires_at = some t ∧ now < t) ∧
        access_allows g.access_level permission = true then
      .ok ()
    else .error (.Authorization "Insufficient permissions")

/-- C2: assuming at most one active membership row and one active grant
row per (store, user) pair, the implemented resolver equals the spec's
first-match-wins decision table, NotFound precondition included. -/
theorem ensure_store_permission_decision_order (db : Db) (now : Nat)
    (user_id store_id : Uuid) (permission : Permission)
    (hm : ∀ m1 ∈ db.store_members, ∀ m2 ∈ db.store_members,
      m1.store_id = store_id → m1.user_id = user_id → m1.is_active = true →
      m2.store_id = store_id → m2.user_id = user_id → m2.is_active = true → m1 = m2)
    (hg : ∀ g1 ∈ db.access_grants, ∀ g2 ∈ db.access_grants,
      grant_active now store_id user_id g1 = true →
      grant_active now store_id user_id g2 = true → g1 = g2) :
    ensure_store_permission db now user_id store_id permission =
      authorize_spec db now user_id store_id permission := by
  unfold ensure_store_permission authorize_spec
  cases hs : StoreRepository.find_by_id db store_id with
  | none => rfl
  | some store =>
    dsimp only
    have hmem_iff : (((MemberRepository.find_membership db store_id user_id).map
        (fun member =>
          member_has_permission member.permissions member.role permission)).getD false
          = true) ↔
        (∃ m ∈ db.store_members, m.store_id = store_id ∧ m.user_id = user_id ∧
          m.is_active = true ∧
          member_has_permission m.permissions m.role permission = true) := by
      cases hf : MemberRepository.find_membership db store_id user_id with
      | none =>
        rw [MemberRepository.find_membership] at hf
        simp only [Option.map_none', Option.getD_none]
        constructor
        · intro h; cases h
        · rintro ⟨m, hmm, h1, h2, h3, h4⟩
          have := List.find?_eq_none.mp hf m hmm
          simp only [Bool.and_eq_true, decide_eq_true_eq, not_and] at this
          exact absurd h3 (this ⟨h1, h2⟩)
      | some m0 =>
        rw [MemberRepository.find_membership] at hf
        have hmem0 := List.mem_of_find?_eq_some hf
        have hp0 := List.find?_some hf
        simp only [Bool.and_eq_true, decide_eq_true_eq] at hp0
        obtain ⟨⟨hs0, hu0⟩, ha0⟩ := hp0
        simp only [Option.map_some', Option.getD_some]
        constructor
        · intro h; exact ⟨m0, hmem0, hs0, hu0, ha0, h⟩
        · rintro ⟨m, hmm, h1, h2, h3, h4⟩
          rw [← hm m hmm m0 hmem0 h1 h2 h3 hs0 hu0 ha0]
          exact h4
    have hgr_iff : (((AccessGrantRepository.find_active db now store_id user_id).map
        (fun grant => access_allows grant.access_level permission)).getD false = true) ↔
        (∃ g ∈ db.access_grants, g.store_id = store_id ∧ g.user_id = user_id ∧
          g.is_revoked = false ∧
          (g.expires_at = none ∨ ∃ t, g.expires_at = some t ∧ now < t) ∧
          access_allows g.access_level permission = true) := by
      cases hf : AccessGrantRepository.find_active db now store_id user_id with
      | none =>
        rw [AccessGrantRepository.find_active] at hf
        simp only [Option.map_none', Option.getD_none]
        constructor
        · intro h; cases h
        · rintro ⟨g, hgm, h1, h2, h3, h4, h5⟩
          exact absurd ((grant_active_iff now store_id user_id g).mpr ⟨h1, h2, h3, h4⟩)
            (List.find?_eq_none.mp hf g hgm)
      | some g0 =>
        rw [AccessGrantRepository.find_active] at hf
        have hmem0 := List.mem_of_find?_eq_some hf
        have hact0 := List.find?_some hf
        have hact0' := (grant_active_iff now store_id user_id g0).mp hact0
        obtain ⟨hs0, hu0, hr0, he0⟩ := hact0'
        simp only [Option.map_some', Option.getD_some]
        constructor
        · intro h; exact ⟨g0, hmem0, hs0, hu0, hr0, he0, h⟩
        · rintro ⟨g, hgm, h1, h2, h3, h4, h5⟩
          rw [← hg g hgm g0 hmem0
            ((grant_active_iff now store_id user_id g).mpr ⟨h1, h2, h3, h4⟩) hact0]
          exact h5
    have hpub_iff : ((!store.is_private) = true ∧
        (permission = .ViewProducts ∨ permission = .ViewOrders)) ↔
        (store.is_private = false ∧
          (permission = .ViewProducts ∨ permission = .ViewOrders)) := by
      cases store.is_private <;> simp
    by_cases h1 : ((MemberRepository.find_membership db store_id user_id).map
        (fun member =>
          member_has_permission member.permissions member.role permission)).getD false
          = true
    · rw [if_pos h1, if_pos (hmem_iff.mp h1)]
    · rw [if_neg h1, if_neg (fun hp => h1 (hmem_iff.mpr hp))]
      by_cases h2 : (!store.is_private) = true ∧
          (permission = .ViewProducts ∨ permission = .ViewOrders)
      · rw [if_pos h2, if_pos (hpub_iff.mp h2)]
      · rw [if_neg h2, if_neg (fun hp => h2 (hpub_iff.mpr hp))]
        by_cases h3 : ((AccessGrantRepository.find_active db now store_id user_id).map
            (fun grant => access_allows grant.access_level permission)).getD false = true
        · rw [if_pos h3, if_pos (hgr_iff.mp h3)]
        · rw [if_neg h3, if_neg (fun hp => h3 (hgr_iff.mpr hp))]

def exDb2 : Db :=
  { stores := [{ id := 10, owner_id := 1, name := "A", is_private := true,
                 status := .Active }],
    products := [], cart_items := [],
    store_members := [{ id := 1, store_id := 10, user_id := 7, role := .Owner,
                        permissions := .arr [], is_active := true }],
    access_grants := [],
    order_groups := [], orders := [], order_items := [], next_id := 0 }

/-- C2 witness: one private store with one active Owner membership. -/
theorem ensure_store_permission_decision_order_witness :
    ensure_store_permission exDb2 0 7 10 .ViewStats =
      authorize_spec exDb2 0 7 10 .ViewStats :=
  ensure_store_permission_decision_order exDb2 0 7 10 .ViewStats
    (by
      intro m1 h1 m2 h2 _ _ _ _ _ _
      simp only [exDb2, List.mem_singleton] at h1 h2
      rw [h1, h2])
    (by
      intro g1 h1
      simp [exDb2] at h1)

/-- C6: add_item checks the quantity range first, then product existence,
then the active flag, then the advisory stock check; on success it
upserts: an existing (user, product) row has its quantity increased by
the requested amount, otherwise a fresh row with the requested quantity
is created. -/
theorem add_item_steps (db : Db) (user_id : Uuid) (payload : AddCartItemRequest)
    (hpuniq : ∀ p1 ∈ db.products, ∀ p2 ∈ db.products, p1.id = p2.id → p1 = p2)
    (hcuniq : ∀ c1 ∈ db.cart_items, ∀ c2 ∈ db.cart_items,
      c1.user_id = user_id → c1.product_id = payload.product_id →
      c2.user_id = user_id → c2.product_id = payload.product_id → c1 = c2) :
    (¬(1 ≤ payload.quantity ∧ payload.quantity ≤ 1000) →
      add_item db user_id payload = (.error (.Validation "quantity: range"), db)) ∧
    ((1 ≤ payload.quantity ∧ payload.quantity ≤ 1000) →
      ((∀ p ∈ db.products, ¬ p.id = payload.product_id) →
        add_item db user_id payload = (.error (.NotFound "Product not found"), db)) ∧
      (∀ p ∈ db.products, p.id = payload.product_id →
        (p.is_active = false →
          add_item db user_id payload = (.error (.BadRequest "Product is inactive"), db)) ∧
        (p.is_active = true → p.stock_quantity < payload.quantity →
          add_item db user_id payload = (.error (.Conflict "Insufficient stock"), db)) ∧
        (p.is_active = true → payload.quantity ≤ p.stock_quantity →
          ∃ item db2, add_item db user_id payload = (.ok item, db2) ∧
            db2.products = db.products ∧
            ((∀ c ∈ db.cart_items,
                ¬(c.user_id = user_id ∧ c.product_id = payload.product_id)) →
              item.quantity = payload.quantity ∧
              db2.cart_items = item :: db.cart_items) ∧
            (∀ c ∈ db.cart_items, c.user_id = user_id → c.product_id = payload.product_id →
              item.quantity = c.quantity + payload.quantity ∧
              db2.cart_items = db.cart_items.map (fun x =>
                if x.user_id = user_id ∧ x.product_id = payload.product_id then
                  { x with quantity := x.quantity + payload.quantity }
                else x))))) := by
  by_cases hr : 1 ≤ payload.quantity ∧ payload.quantity ≤ 1000
  · refine ⟨fun hn => absurd hr hn, fun _ => ⟨?_, ?_⟩⟩
    · intro hnone
      have hfind : ProductRepository.find_by_id db payload.product_id = none := by
        rw [ProductRepository.find_by_id]
        refine List.find?_eq_none.mpr ?_
        intro p hp
        simpa using hnone p hp
      simp [add_item, AddCartItemRequest.validate, if_pos hr, hfind]
    · intro p hp hpid
      have hfind : ProductRepository.find_by_id db payload.product_id = some p := by
        rw [ProductRepository.find_by_id]
        exact find?_eq_some_of_unique hp (by simp [hpid])
          (fun x hx hpx =>
            hpuniq x hx p hp ((by simpa using hpx : x.id = payload.product_id).trans hpid.symm))
      refine ⟨?_, ?_, ?_⟩
      · intro hia
        simp [add_item, AddCartItemRequest.validate, if_pos hr, hfind, hia]
      · intro hact hstock
        simp [add_item, AddCartItemRequest.validate, if_pos hr, hfind, hact, hstock]
      · intro hact hstock
        have hnotlt : ¬ p.stock_quantity < payload.quantity := not_lt.mpr hstock
        cases hcf : db.cart_items.find? (fun c =>
            decide (c.user_id = user_id) && decide (c.product_id = payload.product_id)) with
        | none =>
          refine ⟨{ id := db.next_id, user_id := user_id,
                    product_id := payload.product_id, quantity := payload.quantity },
            { db with
              next_id := db.next_id + 1,
              cart_items := { id := db.next_id, user_id := user_id,
                              product_id := payload.product_id,
                              quantity := payload.quantity } :: db.cart_items },
            ?_, rfl, ?_, ?_⟩
          · simp [add_item, AddCartItemRequest.validate, if_pos hr, hfind, hact, hnotlt,
              CartRepository.upsert_item, hcf]
          · intro _
            exact ⟨rfl, rfl⟩
          · intro c hc h1 h2
            have := List.find?_eq_none.mp hcf c hc
            simp only [Bool.and_eq_true, decide_eq_true_eq, not_and] at this
            exact absurd h2 (this h1)
        | some c0 =>
          have hc0mem := List.mem_of_find?_eq_some hcf
          have hc0p := List.find?_some hcf
          simp only [Bool.and_eq_true, decide_eq_true_eq] at hc0p
          obtain ⟨hc0u, hc0pid⟩ := hc0p
          refine ⟨{ c0 with quantity := c0.quantity + payload.quantity },
            { db with cart_items := db.cart_items.map (fun x =>
                if decide (x.user_id = user_id) && decide (x.product_id = payload.product_id)
                then { x with quantity := x.quantity + payload.quantity }
                else x) },
            ?_, rfl, ?_, ?_⟩
          · simp [add_item, AddCartItemRequest.validate, if_pos hr, hfind, hact, hnotlt,
              CartRepository.upsert_item, hcf]
          · intro hnone
            exact absurd ⟨hc0u, hc0pid⟩ (hnone c0 hc0mem)
          · intro c hc h1 h2
            refine ⟨?_, ?_⟩
            · rw [hcuniq c hc c0 hc0mem h1 h2 hc0u hc0pid]
            · simp only
              congr 1
              funext x
              by_cases hx : x.user_id = user_id ∧ x.product_id = payload.product_id
              · rw [if_pos (show (decide (x.user_id = user_id) &&
                    decide (x.product_id = payload.product_id)) = true from by
                      simp; exact hx), if_pos hx]
              · rw [if_neg (show ¬ (decide (x.user_id = user_id) &&
                    decide (x.product_id = payload.product_id)) = true from by
                      simpa using hx), if_neg hx]
  · refine ⟨?_, fun h => absurd h hr⟩
    intro _
    simp [add_item, AddCartItemRequest.validate, hr]

def exDb6 : Db :=
  { stores := [{ id := 10, owner_id := 1, name := "A", is_private := false,
                 status := .Active }],
    products := [{ id := 1, store_id := 10, name := "P", price := 5, stock_quantity := 10,
                   is_active := true }],
    store_members := [], access_grants := [],
    cart_items := [{ id := 100, user_id := 7, product_id := 1, quantity := 2 }],
    order_groups := [], orders := [], order_items := [], next_id := 0 }

/-- C6 witness: adding 3 units of an active product with stock 10 to a
cart already holding 2 of them. -/
theorem add_item_steps_witness :
    (¬(1 ≤ (3 : Int) ∧ (3 : Int) ≤ 1000) →
      add_item exDb6 7 { product_id := 1, quantity := 3 } =
        (.error (.Validation "quantity: range"), exDb6)) ∧
    ((1 ≤ (3 : Int) ∧ (3 : Int) ≤ 1000) →
      ((∀ p ∈ exDb6.products, ¬ p.id = 1) →
        add_item exDb6 7 { product_id := 1, quantity := 3 } =
          (.error (.NotFound "Product not found"), exDb6)) ∧
      (∀ p ∈ exDb6.products, p.id = 1 →
        (p.is_active = false →
          add_item exDb6 7 { product_id := 1, quantity := 3 } =
            (.error (.BadRequest "Product is inactive"), exDb6)) ∧
        (p.is_active = true → p.stock_quantity < 3 →
          add_item exDb6 7 { product_id := 1, quantity := 3 } =
            (.error (.Conflict "Insufficient stock"), exDb6)) ∧
        (p.is_active = true → (3 : Int) ≤ p.stock_quantity →
          ∃ item db2, add_item exDb6 7 { product_id := 1, quantity := 3 } =
              (.ok item, db2) ∧
            db2.products = exDb6.products ∧
            ((∀ c ∈ exDb6.cart_items, ¬(c.user_id = 7 ∧ c.product_id = 1)) →
              item.quantity = 3 ∧
              db2.cart_items = item :: exDb6.cart_items) ∧
            (∀ c ∈ exDb6.cart_items, c.user_id = 7 → c.product_id = 1 →
              item.quantity = c.quantity + 3 ∧
              db2.cart_items = exDb6.cart_items.map (fun x =>
                if x.user_id = 7 ∧ x.product_id = 1 then
                  { x with quantity := x.quantity + 3 }
                else x))))) :=
  add_item_steps exDb6 7 { product_id := 1, quantity := 3 } (by decide) (by decide)

theorem prepare_calculations_length (items : List CartItemDetail) (addr : Jv) :
    (prepare_calculations items addr).length =
      (items.map CartItemDetail.store_id).toFinset.card := by
  rw [prepare_calculations, List.length_map, group_by_store_length]

theorem prepare_calculations_mem (items : List CartItemDetail) (addr : Jv)
    (c : StoreCalculation) (hc : c ∈ prepare_calculations items addr) :
    c.tax = 0 ∧ c.discount = 0 ∧ c.shipping_cost = 0 ∧
    c.items = items.filter (fun l => decide (l.store_id = c.store_id)) ∧
    c.subtotal = ((items.filter (fun l => decide (l.store_id = c.store_id))).map
      (fun l => l.unit_price * (l.quantity : Rat))).sum ∧
    c.total_amount = c.subtotal + c.tax + c.shipping_cost - c.discount := by
  rw [prepare_calculations] at hc
  obtain ⟨e, he, rfl⟩ := List.mem_map.mp hc
  have hentry := group_by_store_entry items e he
  dsimp only
  refine ⟨rfl, rfl, rfl, hentry, ?_, rfl⟩
  rw [hentry]
  have hfa := foldl_add_map (fun l : CartItemDetail => l.unit_price * (l.quantity : Rat))
    (items.filter (fun x => decide (x.store_id = e.1))) 0
  rw [hfa, zero_add]

theorem mem_tx_lines_prepare (items : List CartItemDetail) (addr : Jv)
    (l : CartItemDetail) (hl : l ∈ items) :
    l ∈ tx_lines (prepare_calculations items addr) := by
  have hk : l.store_id ∈ (group_by_store items).map Prod.fst :=
    (group_by_store_keys_mem items l.store_id).mpr (List.mem_map_of_mem _ hl)
  obtain ⟨e, he, hke⟩ := List.mem_map.mp hk
  have hentry := group_by_store_entry items e he
  rw [tx_lines, prepare_calculations]
  refine List.mem_flatMap.mpr ⟨_, List.mem_map_of_mem _ he, ?_⟩
  dsimp only
  rw [hentry]
  exact List.mem_filter.mpr ⟨hl, by simp [hke]⟩

/-- C3: a successful checkout of a non-empty cart creates exactly one
order group and one order per distinct store; each order carries zero
tax, discount, and shipping, a subtotal summing unit_price times
quantity over its store's lines, and a total equal to
subtotal + tax + shipping_cost - discount; the group total is the sum of
the order totals, every created order item's subtotal is its unit price
times its quantity, and the user's cart is empty afterwards. -/
theorem checkout_multistore_totals (db : Db) (clock : Nat → Nat) (user_id : Uuid)
    (payload : CheckoutRequest) (g : OrderGroup) (orders2 : List Order) (db2 : Db)
    (h : checkout db clock user_id payload =
      (.ok { order_group := g, orders := orders2 }, db2)) :
    CartRepository.list_with_products db user_id ≠ [] ∧
    db2.order_groups = db.order_groups ++ [g] ∧
    orders2.length = ((CartRepository.list_with_products db user_id).map
      CartItemDetail.store_id).toFinset.card ∧
    (∀ o ∈ orders2, o.tax = 0 ∧ o.discount = 0 ∧ o.shipping_cost = 0 ∧
      o.subtotal = (((CartRepository.list_with_products db user_id).filter
        (fun l => decide (l.store_id = o.store_id))).map
          (fun l => l.unit_price * (l.quantity : Rat))).sum ∧
      o.total_amount = o.subtotal + o.tax + o.shipping_cost - o.discount) ∧
    g.total_amount = (orders2.map Order.total_amount).sum ∧
    db2.orders = db.orders ++ orders2 ∧
    (∀ it ∈ db2.order_items, it ∈ db.order_items ∨
      it.subtotal = it.unit_price * (it.quantity : Rat)) ∧
    CartRepository.list_with_products db2 user_id = [] := by
  cases hv : payload.validate with
  | error e => simp [checkout, hv] at h
  | ok u =>
    cases u
    cases hne : (CartRepository.list_with_products db user_id).isEmpty with
    | true => simp only [checkout, hv, hne, if_pos] at h; simp at h
    | false =>
      cases hlo : lines_ok db.products
          (tx_lines (prepare_calculations (CartRepository.list_with_products db user_id)
            payload.shipping_address)) with
      | false =>
        rw [checkout_stock_fail db clock user_id payload hv hlo] at h
        simp at h
      | true =>
        obtain ⟨g0, orders0, db0, new0, heq, hid, huid, hnum, hpay, htot, hsig, hog,
          hor, hoi, hmap, hprod, hst, hmem, hgr, hci⟩ :=
          checkout_success db clock user_id payload hv hne hlo
        rw [heq] at h
        simp only [Prod.mk.injEq, Except.ok.injEq, CheckoutSummary.mk.injEq] at h
        obtain ⟨⟨hgg, hoo⟩, hdd⟩ := h
        subst hgg
        subst hoo
        subst hdd
        refine ⟨?_, hog, ?_, ?_, ?_, hor, ?_, ?_⟩
        · intro hnil
          rw [hnil] at hne
          simp at hne
        · have hlen := congrArg List.length hsig
          simp only [List.length_map] at hlen
          rw [hlen, prepare_calculations_length]
        · intro o ho
          have hos : order_sig o ∈ orders0.map order_sig := List.mem_map_of_mem _ ho
          rw [hsig] at hos
          obtain ⟨c, hcm, hcs⟩ := List.mem_map.mp hos
          simp only [order_sig, calc_sig, Prod.mk.injEq] at hcs
          obtain ⟨hc1, hc2, hc3, hc4, hc5, hc6⟩ := hcs
          obtain ⟨ht0, hd0, hs0, -, hsub, htot0⟩ :=
            prepare_calculations_mem _ _ c hcm
          refine ⟨hc3 ▸ ht0, hc4 ▸ hd0, hc5 ▸ hs0, ?_, ?_⟩
          · rw [← hc2, ← hc1, hsub]
          · rw [← hc6, ← hc2, ← hc3, ← hc4, ← hc5, htot0]
        · rw [htot]
          have := congrArg (List.map
            (fun t : Uuid × Rat × Rat × Rat × Rat × Rat => t.2.2.2.2.2)) hsig
          simp only [List.map_map] at this
          have hl : orders0.map ((fun t : Uuid × Rat × Rat × Rat × Rat × Rat =>
              t.2.2.2.2.2) ∘ order_sig) = orders0.map Order.total_amount := by
            apply List.map_congr_left
            intro o _
            rfl
          have hr : (prepare_calculations (CartRepository.list_with_products db user_id)
              payload.shipping_address).map ((fun t : Uuid × Rat × Rat × Rat × Rat × Rat =>
              t.2.2.2.2.2) ∘ calc_sig) = (prepare_calculations
              (CartRepository.list_with_products db user_id)
              payload.shipping_address).map StoreCalculation.total_amount := by
            apply List.map_congr_left
            intro c _
            rfl
          rw [hl, hr] at this
          rw [← this]
        · intro it hit
          rw [hoi] at hit
          cases List.mem_append.mp hit with
          | inl h1 => exact Or.inl h1
          | inr h2 =>
            refine Or.inr ?_
            have hsit : item_sig it ∈ new0.map item_sig := List.mem_map_of_mem _ h2
            rw [hmap] at hsit
            obtain ⟨l, -, hls⟩ := List.mem_map.mp hsit
            simp only [line_sig, item_sig, Prod.mk.injEq] at hls
            obtain ⟨-, hq, hup, hsb⟩ := hls
            rw [← hsb, ← hq, ← hup]
        · refine list_with_products_nil _ _ ?_
          intro c hc
          rw [hci] at hc
          have := List.mem_filter.mp hc
          simpa using this.2

def exDb3 : Db :=
  { stores := [{ id := 10, owner_id := 1, name := "A", is_private := false,
                 status := .Active },
               { id := 20, owner_id := 2, name := "B", is_private := false,
                 status := .Active }]
    products := [{ id := 1, store_id := 10, name := "P", price := 25, stock_quantity := 10,
                   is_active := true },
                 { id := 2, store_id := 20, name := "Q", price := 15, stock_quantity := 8,
                   is_active := true }]
    store_members := []
    access_grants := []
    cart_items := [{ id := 100, user_id := 7, product_id := 1, quantity := 2 },
                   { id := 101, user_id := 7, product_id := 2, quantity := 1 }]
    order_groups := [], orders := [], order_items := [], next_id := 0 }

def c3Out : Except AppError CheckoutSummary × Db :=
  checkout exDb3 (fun _ => 12345) 7 exPayload

def c3Summary : CheckoutSummary :=
  match c3Out.1 with
  | .ok s => s
  | .error _ =>
    { order_group := { id := 0, user_id := 0, group_number := "",
                       total_amount := 0, payment_status := .Pending },
      orders := [] }

/-- C3 witness: the two-store scenario (25.00 x 2 from store A, 15.00 x 1
from store B) checked out successfully. -/
theorem checkout_multistore_totals_witness :
    CartRepository.list_with_products exDb3 7 ≠ [] ∧
    c3Out.2.order_groups = exDb3.order_groups ++ [c3Summary.order_group] ∧
    c3Summary.orders.length = ((CartRepository.list_with_products exDb3 7).map
      CartItemDetail.store_id).toFinset.card ∧
    (∀ o ∈ c3Summary.orders, o.tax = 0 ∧ o.discount = 0 ∧ o.shipping_cost = 0 ∧
      o.subtotal = (((CartRepository.list_with_products exDb3 7).filter
        (fun l => decide (l.store_id = o.store_id))).map
          (fun l => l.unit_price * (l.quantity : Rat))).sum ∧
      o.total_amount = o.subtotal + o.tax + o.shipping_cost - o.discount) ∧
    c3Summary.order_group.total_amount = (c3Summary.orders.map Order.total_amount).sum ∧
    c3Out.2.orders = exDb3.orders ++ c3Summary.orders ∧
    (∀ it ∈ c3Out.2.order_items, it ∈ exDb3.order_items ∨
      it.subtotal = it.unit_price * (it.quantity : Rat)) ∧
    CartRepository.list_with_products c3Out.2 7 = [] :=
  checkout_multistore_totals exDb3 (fun _ => 12345) 7 exPayload
    c3Summary.order_group c3Summary.orders c3Out.2 (by rfl)

/-- C9: inside checkout only stock sufficiency is re-validated per line:
a cart line whose product is inactive but has enough stock is still sold
(the checkout succeeds and an order item with its captured price and
quantity is created). -/
theorem checkout_sells_inactive_products (db : Db) (clock : Nat → Nat) (user_id : Uuid)
    (payload : CheckoutRequest) (l : CartItemDetail)
    (hv : payload.validate = .ok ())
    (hl : l ∈ CartRepository.list_with_products db user_id)
    (_hinact : ∀ p ∈ db.products, p.id = l.product_id → p.is_active = false)
    (hstock : lines_ok db.products (tx_lines (prepare_calculations
      (CartRepository.list_with_products db user_id) payload.shipping_address)) = true) :
    ∃ s db2, checkout db clock user_id payload = (.ok s, db2) ∧
      ∃ it ∈ db2.order_items, it.product_id = l.product_id ∧ it.quantity = l.quantity ∧
        it.unit_price = l.unit_price ∧
        it.subtotal = it.unit_price * (it.quantity : Rat) := by
  have hne : (CartRepository.list_with_products db user_id).isEmpty = false := by
    cases hni : CartRepository.list_with_products db user_id with
    | nil => rw [hni] at hl; cases hl
    | cons a t => simp
  obtain ⟨g0, orders0, db0, new0, heq, hid, huid, hnum, hpay, htot, hsig, hog,
    hor, hoi, hmap, hprod, hst, hmem, hgr, hci⟩ :=
    checkout_success db clock user_id payload hv hne hstock
  refine ⟨{ order_group := g0, orders := orders0 }, db0, heq, ?_⟩
  have hltx : l ∈ tx_lines (prepare_calculations
      (CartRepository.list_with_products db user_id) payload.shipping_address) :=
    mem_tx_lines_prepare _ _ l hl
  have hls : line_sig l ∈ (tx_lines (prepare_calculations
      (CartRepository.list_with_products db user_id)
      payload.shipping_address)).map line_sig := List.mem_map_of_mem _ hltx
  rw [← hmap] at hls
  obtain ⟨it, hitm, hits⟩ := List.mem_map.mp hls
  simp only [item_sig, line_sig, Prod.mk.injEq] at hits
  obtain ⟨h1, h2, h3, h4⟩ := hits
  refine ⟨it, ?_, h1, h2, h3, ?_⟩
  · rw [hoi]
    exact List.mem_append_right _ hitm
  · rw [h4, ← h2, ← h3]

def exDb9 : Db :=
  { stores := [{ id := 10, owner_id := 1, name := "A", is_private := false,
                 status := .Active }],
    products := [{ id := 1, store_id := 10, name := "P", price := 4, stock_quantity := 5,
                   is_active := false }],
    store_members := [], access_grants := [],
    cart_items := [{ id := 100, user_id := 7, product_id := 1, quantity := 2 }],
    order_groups := [], orders := [], order_items := [], next_id := 0 }

/-- C9 witness: a cart holding two units of an inactive product with
stock five still checks out. -/
theorem checkout_sells_inactive_products_witness :
    ∃ s db2, checkout exDb9 (fun _ => 0) 7 exPayload = (.ok s, db2) ∧
      ∃ it ∈ db2.order_items, it.product_id = 1 ∧ it.quantity = 2 ∧
        it.unit_price = 4 ∧ it.subtotal = it.unit_price * ((it.quantity : Int) : Rat) :=
  checkout_sells_inactive_products exDb9 (fun _ => 0) 7 exPayload
    { cart_item_id := 100, product_id := 1, store_id := 10, store_name := "A",
      product_name := "P", unit_price := 4, quantity := 2 }
    (by rfl) (by decide) (by decide) (by rfl)

/-- C8 evidence: both orders of a single two-store checkout call whose
number generations fall in the same millisecond receive the same
order_number (the millisecond timestamp in hex), so the generated
identifiers are not pairwise distinct. -/
theorem order_numbers_collide :
    ((checkout exDb3 (fun _ => 12345) 7 exPayload).1.toOption.map
      (fun s => s.orders.map Order.order_number)) = some ["ORD-3039", "ORD-3039"] ∧
    ¬ (["ORD-3039", "ORD-3039"] : List String).Nodup := by
  constructor
  · rfl
  · decide

end MarketHub
